import Mathlib

/-!
Verification development for the amp-whale-tracker repository.

The embedding models, from the source:
 - the query client AmpClient (whale_tracker.py, lines 46-76): URL normalization
   in the constructor, HTTP POST outcome handling, JSONL parsing, DataFrame
   assembly, and the two diagnostic messages;
 - the two SQL query templates get_whale_transfers (lines 95-111) and
   get_whale_stats (lines 113-128), as structured values mirroring the SQL
   text, plus a row-level semantics for the WHERE clause and selected
   expressions;
 - the synthetic data generator generate_sample_whale_data
   (simple_whale_demo.py, lines 21-77), parameterized by the random draws.

External-library behavior that the code relies on is modelled at the interface
the code uses: requests.post raises ConnectionError, Timeout, or (after
response.raise_for_status) HTTPError for statuses 400-599; json.loads either
returns a dict or raises; pandas.DataFrame over a list of dicts takes the
union of the keys in first-appearance order and pads missing cells with NaN.
-/

/-- A scalar JSON/pandas cell value, as json.loads produces for the rows in
scope (strings, numbers, booleans, null). Numbers are modelled as rationals. -/
inductive PyVal
  | str (s : String)
  | num (q : ℚ)
  | bool (b : Bool)
  | null
deriving DecidableEq

/-- A parsed JSON object (a Python dict) as json.loads returns for one JSONL
line: an association list from key to value; dict keys are unique. -/
def JsonObj : Type := List (String × PyVal)

instance : DecidableEq JsonObj := by
  unfold JsonObj
  infer_instance

/-- The column list pandas infers for DataFrame(list_of_dicts): the union of
the rows' keys in order of first appearance. -/
def unionKeys (rows : List JsonObj) : List String :=
  rows.foldl (fun acc r => acc ++ (r.map Prod.fst).filter (fun k => !(acc.contains k))) []

/-- Dict lookup of a column name in a parsed row (keys are unique). -/
def lookupCell (r : JsonObj) (cname : String) : Option PyVal :=
  (r.find? (fun kv => kv.1 == cname)).map Prod.snd

/-- Model of a pandas DataFrame: a column list and positional rows; a missing
cell (pandas NaN padding) is none. -/
structure DataFrame where
  columns : List String
  rows : List (List (Option PyVal))
deriving DecidableEq

/-- pd.DataFrame() with no argument: empty frame. -/
def DataFrame.empty : DataFrame := ⟨[], []⟩

/-- pd.DataFrame(data) for data a list of dicts: columns are the union of the
keys in first-appearance order; each row is padded to the full column list,
with none (NaN) where a dict lacks a key. -/
def DataFrame.ofRecords (recs : List JsonObj) : DataFrame :=
  ⟨unionKeys recs, recs.map (fun r => (unionKeys recs).map (fun cname => lookupCell r cname))⟩

/-- base_url.rstrip of the slash character, on the character list: drop every
trailing slash. -/
def rstripSlashList (l : List Char) : List Char :=
  (l.reverse.dropWhile (fun c => c == '/')).reverse

/-- Python base_url.rstrip removing trailing slashes (whale_tracker.py line 50). -/
def rstripSlashes (s : String) : String := ⟨rstripSlashList s.data⟩

/-- A string of k slash characters, for stating the normalization property. -/
def slashReplicate (k : ℕ) : String := ⟨List.replicate k '/'⟩

/-- The string ends with a slash character. -/
def endsWithSlash (s : String) : Prop := s.data.getLast? = some '/'

instance (s : String) : Decidable (endsWithSlash s) := by
  unfold endsWithSlash
  infer_instance

/-- The Amp client (whale_tracker.py lines 46-50): holds the configured base
URL; the constructor stores base_url.rstrip of slashes. -/
structure AmpClient where
  base_url : String

/-- AmpClient construction (whale_tracker.py lines 49-50):
self.base_url = base_url.rstrip of the slash character. -/
def AmpClient.ofBaseUrl (base_url : String) : AmpClient :=
  ⟨rstripSlashes base_url⟩

/-- One line of the JSONL response body, classified the way the parsing loop
(whale_tracker.py lines 63-64) observes it: blank (line.strip is falsy, so the
comprehension skips it), malformed (json.loads raises, carrying the exception
text), or a parsed JSON object. -/
inductive RespLine
  | blank
  | malformed (excMsg : String)
  | obj (r : JsonObj)

/-- Whether the line is blank. -/
def RespLine.isBlank : RespLine → Bool
  | .blank => true
  | _ => false

/-- Whether json.loads raises on the line. -/
def RespLine.isMalformed : RespLine → Bool
  | .malformed _ => true
  | _ => false

/-- The parsed object of the line, when it has one. -/
def RespLine.getObj : RespLine → Option JsonObj
  | .obj r => some r
  | _ => none

/-- The diagnostic AmpClient.query surfaces via st.error: either the message
of the requests.exceptions.RequestException handler (line 72) or the message
of the generic Exception handler (line 75), each carrying the caught
exception's text. -/
inductive Diagnostic
  | ampConnectError (excMsg : String)
  | queryError (excMsg : String)
deriving DecidableEq

/-- The user-visible text of the diagnostic: the two f-string templates of
whale_tracker.py lines 72 and 75 with the exception text spliced in. -/
def Diagnostic.render : Diagnostic → String
  | .ampConnectError m => "Failed to connect to Amp server: " ++ m
  | .queryError m => "Query error: " ++ m

/-- The outcome of the requests.post call as AmpClient.query observes it:
a raised ConnectionError, a raised Timeout (both RequestException subclasses,
carrying the library's exception text), or a response with an HTTP status,
the text of the HTTPError that raise_for_status would raise for that status
(library-constructed), and the body split into classified JSONL lines. -/
inductive HttpOutcome
  | connectionError (excMsg : String)
  | timeout (excMsg : String)
  | response (status : ℕ) (statusExcMsg : String) (body : List RespLine)

/-- requests' response.raise_for_status: raises HTTPError exactly for client
and server error statuses, 400 to 599; every other status (including the
2xx successes and any 3xx that survives redirect handling) passes. -/
def raiseForStatus (status : ℕ) : Bool :=
  decide (400 ≤ status) && decide (status < 600)

/-- The comprehension data = json.loads of each line for the non-blank lines
(whale_tracker.py line 64): blank lines are skipped; the first malformed line
raises (its exception escapes the comprehension); otherwise the parsed objects
are collected in order. -/
def collectRows : List RespLine → Except String (List JsonObj)
  | [] => .ok []
  | .blank :: rest => collectRows rest
  | .malformed m :: _ => .error m
  | .obj r :: rest => (collectRows rest).map (fun rs => r :: rs)

/-- What one call to AmpClient.query did: the URL and body it POSTed
(requests.post(self.base_url, data=sql, ...), lines 55-60), the DataFrame
returned, and the diagnostic surfaced through st.error, if any. -/
structure QueryOutput where
  requestedUrl : String
  requestedBody : String
  frame : DataFrame
  diag : Option Diagnostic
deriving DecidableEq

/-- AmpClient.query (whale_tracker.py lines 52-76): POST the SQL to base_url;
a ConnectionError or Timeout from requests.post, or the HTTPError from
raise_for_status, is caught by the RequestException handler (lines 71-73),
which surfaces "Failed to connect to Amp server" with the exception text and
returns an empty DataFrame; otherwise the body lines are parsed, a json.loads
failure is caught by the generic handler (lines 74-76), which surfaces
"Query error" with the exception text and returns an empty DataFrame; an
empty row list returns pd.DataFrame() and otherwise pd.DataFrame(data). -/
def AmpClient.query (c : AmpClient) (sql : String) (out : HttpOutcome) : QueryOutput :=
  match out with
  | .connectionError m => ⟨c.base_url, sql, DataFrame.empty, some (.ampConnectError m)⟩
  | .timeout m => ⟨c.base_url, sql, DataFrame.empty, some (.ampConnectError m)⟩
  | .response status statusMsg body =>
    if raiseForStatus status then
      ⟨c.base_url, sql, DataFrame.empty, some (.ampConnectError statusMsg)⟩
    else
      match collectRows body with
      | .error m => ⟨c.base_url, sql, DataFrame.empty, some (.queryError m)⟩
      | .ok rows => ⟨c.base_url, sql, DataFrame.ofRecords rows, none⟩

/-- The outcomes on which AmpClient.query takes a failure path: a raised
connection error or timeout, a status that raise_for_status flags, or a body
on which json.loads raises. -/
def queryFails (out : HttpOutcome) : Bool :=
  match out with
  | .connectionError _ => true
  | .timeout _ => true
  | .response s _ body => raiseForStatus s || body.any RespLine.isMalformed

/-- The parsed rows of a non-failing outcome: the objects of the non-blank
lines, in order. -/
def successRows (out : HttpOutcome) : List JsonObj :=
  match out with
  | .response _ _ body => body.filterMap RespLine.getObj
  | _ => []

/-- A concrete client, constructed at the default endpoint URL of the source. -/
def demoClient : AmpClient := AmpClient.ofBaseUrl "http://localhost:1603"

/-- A comparison operator of a SQL WHERE clause; the source templates use
the inclusive one (the SQL text has a greater-or-equal sign). -/
inductive CmpOp
  | ge
  | gt
deriving DecidableEq

/-- Whether a row value satisfies the comparison against the bound. -/
def CmpOp.holds : CmpOp → ℚ → ℚ → Bool
  | .ge, v, b => decide (b ≤ v)
  | .gt, v, b => decide (b < v)

/-- A scalar SQL expression occurring in the templates: a plain column
reference, CAST(value AS DOUBLE), or a division of an expression by a
numeric literal. -/
inductive ScalarExpr
  | col (name : String)
  | castValueDouble
  | divC (e : ScalarExpr) (d : ℚ)
deriving DecidableEq

/-- An aggregate SQL expression occurring in the stats template. -/
inductive AggExpr
  | countStar
  | sumA (e : ScalarExpr)
  | avgA (e : ScalarExpr)
  | maxA (e : ScalarExpr)
deriving DecidableEq

/-- Whether the aggregate is an average. -/
def AggExpr.isAvg : AggExpr → Bool
  | .avgA _ => true
  | _ => false

/-- A row of the ethereum/eth_rpc transactions table, with the columns the
templates touch; the recipient is nullable (the templates filter on
the recipient being non-null) and value is the raw integer wei amount,
modelled as a rational (CAST(value AS DOUBLE) in the SQL). -/
structure TransferRow where
  timestamp : ℚ
  block_num : ℕ
  tx_hash : String
  from_addr : String
  to_addr : Option String
  value : ℚ

/-- The value of a scalar expression at a row. -/
def ScalarExpr.eval (e : ScalarExpr) (r : TransferRow) : PyVal :=
  match e with
  | .col "timestamp" => .num r.timestamp
  | .col "block_num" => .num r.block_num
  | .col "tx_hash" => .str r.tx_hash
  | .col "from" => .str r.from_addr
  | .col "to" =>
    match r.to_addr with
    | some a => .str a
    | none => .null
  | .col _ => .null
  | .castValueDouble => .num r.value
  | .divC e d =>
    match e.eval r with
    | .num q => .num (q / d)
    | _ => .null

/-- The shape of the recent-transfers SQL statement: selected expressions
with their output names, the source table, the WHERE clause (a comparison of
CAST(value AS DOUBLE) against a bound, and the non-null recipient filter),
the ORDER BY expression and direction, and the LIMIT. -/
structure TransfersSql where
  select : List (ScalarExpr × String)
  fromTable : String
  whereCmp : CmpOp
  whereBound : ℚ
  whereToNotNull : Bool
  orderByExpr : ScalarExpr
  orderDesc : Bool
  limit : ℕ

/-- The shape of the aggregate stats SQL statement: the GROUP BY column, the
selected key column with its output name, the aggregates with their output
names, the WHERE clause, an optional HAVING clause on the group row count
(none when the statement has no HAVING), the ORDER BY output column and
direction, and the LIMIT. -/
structure StatsSql where
  selectKey : String × String
  aggs : List (AggExpr × String)
  fromTable : String
  whereCmp : CmpOp
  whereBound : ℚ
  whereToNotNull : Bool
  groupBy : String
  havingCountAtLeast : Option ℕ
  orderByOut : String
  orderDesc : Bool
  limit : ℕ

/-- get_whale_transfers (whale_tracker.py lines 95-111), transcribed from the
SQL text: SELECT timestamp, block_num, tx_hash AS transaction_hash, from AS
from_address, to AS to_address, CAST(value AS DOUBLE) / 1e18 AS eth_amount
FROM the transactions table WHERE CAST(value AS DOUBLE) at least
min_eth * 1e18 AND to IS NOT NULL ORDER BY CAST(value AS DOUBLE) DESC
LIMIT 500. The Python multiplies the float min_eth by the float 1e18 when
interpolating; both are modelled as exact rationals. -/
def get_whale_transfers_sql (min_eth : ℚ) : TransfersSql :=
  { select := [(.col "timestamp", "timestamp"),
               (.col "block_num", "block_num"),
               (.col "tx_hash", "transaction_hash"),
               (.col "from", "from_address"),
               (.col "to", "to_address"),
               (.divC .castValueDouble ((10 : ℚ) ^ 18), "eth_amount")]
    fromTable := "ethereum/eth_rpc@latest.transactions"
    whereCmp := .ge
    whereBound := min_eth * (10 : ℚ) ^ 18
    whereToNotNull := true
    orderByExpr := .castValueDouble
    orderDesc := true
    limit := 500 }

/-- get_whale_stats (whale_tracker.py lines 113-128), transcribed from the
SQL text: SELECT from AS from_address, COUNT of all rows AS transfer_count,
SUM(CAST(value AS DOUBLE) / 1e18) AS total_eth, MAX(CAST(value AS DOUBLE)
/ 1e18) AS largest_transfer FROM the transactions table WHERE CAST(value AS
DOUBLE) at least 50000000000000000000 AND to IS NOT NULL GROUP BY from
ORDER BY total_eth DESC LIMIT 15. The statement has no AVG aggregate and no
HAVING clause. -/
def get_whale_stats_sql : StatsSql :=
  { selectKey := ("from", "from_address")
    aggs := [(.countStar, "transfer_count"),
             (.sumA (.divC .castValueDouble ((10 : ℚ) ^ 18)), "total_eth"),
             (.maxA (.divC .castValueDouble ((10 : ℚ) ^ 18)), "largest_transfer")]
    fromTable := "ethereum/eth_rpc@latest.transactions"
    whereCmp := .ge
    whereBound := 50000000000000000000
    whereToNotNull := true
    groupBy := "from"
    havingCountAtLeast := none
    orderByOut := "total_eth"
    orderDesc := true
    limit := 15 }

/-- Row-level semantics of the transfers WHERE clause: the value comparison
against the bound, and when the non-null-recipient filter is present, the
recipient being non-null. -/
def transfersRowPasses (q : TransfersSql) (r : TransferRow) : Bool :=
  q.whereCmp.holds r.value q.whereBound && (!q.whereToNotNull || r.to_addr.isSome)

/-- Row-level semantics of the stats WHERE clause. -/
def statsRowPasses (q : StatsSql) (r : TransferRow) : Bool :=
  q.whereCmp.holds r.value q.whereBound && (!q.whereToNotNull || r.to_addr.isSome)

/-- One iteration's random draws in generate_sample_whale_data
(simple_whale_demo.py lines 42-63): the minutes offset, the ETH amount, the
chosen sender and recipient addresses, the transaction hash, the gas price in
gwei, the gas used, and the block-number offset. Times and amounts are
modelled as rationals. -/
structure SampleDraw where
  minutes_ago : ℕ
  eth_amount : ℚ
  from_addr : String
  to_addr : String
  tx_hash : String
  gas_gwei : ℚ
  gas_used : ℕ
  block_offset : ℕ

/-- The dict appended for one transfer (simple_whale_demo.py lines 65-75):
nine keys, with gas_fee_eth computed as gas_gwei * gas_used / 1e9 (line 60)
and block_number as 21000000 plus the drawn offset (line 63). -/
def sampleRecord (base_time : ℚ) (d : SampleDraw) : JsonObj :=
  [("block_timestamp", .num (base_time + d.minutes_ago)),
   ("block_number", .num ((21000000 : ℚ) + d.block_offset)),
   ("transaction_hash", .str d.tx_hash),
   ("from_address", .str d.from_addr),
   ("to_address", .str d.to_addr),
   ("eth_amount", .num d.eth_amount),
   ("gas_gwei", .num d.gas_gwei),
   ("gas_used", .num d.gas_used),
   ("gas_fee_eth", .num (d.gas_gwei * d.gas_used / (10 : ℚ) ^ 9))]

/-- Insert one element into a list sorted descending by the key. -/
def insertDescBy {α : Type} (key : α → ℚ) (a : α) : List α → List α
  | [] => [a]
  | b :: l => if key b ≤ key a then a :: b :: l else b :: insertDescBy key a l

/-- Sort a list descending by the key (insertion sort). -/
def sortDescBy {α : Type} (key : α → ℚ) : List α → List α
  | [] => []
  | a :: l => insertDescBy key a (sortDescBy key l)

/-- The sort key of a positional row for sort_values on a named column: the
numeric cell under that column, 0 when absent or non-numeric. -/
def rowSortKey (cols : List String) (cname : String) (row : List (Option PyVal)) : ℚ :=
  match row.get? (cols.indexOf cname) with
  | some (some (PyVal.num q)) => q
  | _ => 0

/-- df.sort_values(column, ascending=False): reorder the rows by the named
column, descending; the column list is unchanged. -/
def DataFrame.sortValuesDesc (cname : String) (df : DataFrame) : DataFrame :=
  ⟨df.columns, sortDescBy (rowSortKey df.columns cname) df.rows⟩

/-- generate_sample_whale_data (simple_whale_demo.py lines 21-77): build one
record per index from the draws, assemble the DataFrame, and sort it by
block_timestamp descending. base_time models datetime.now() minus two hours
(line 40); the randomness is supplied as the draws function. -/
def generate_sample_whale_data (num_transfers : ℕ) (base_time : ℚ)
    (draws : ℕ → SampleDraw) : DataFrame :=
  DataFrame.sortValuesDesc "block_timestamp"
    (DataFrame.ofRecords ((List.range num_transfers).map (fun i => sampleRecord base_time (draws i))))

/-- The column list of every record the generator appends. -/
def sample_columns : List String :=
  ["block_timestamp", "block_number", "transaction_hash", "from_address",
   "to_address", "eth_amount", "gas_gwei", "gas_used", "gas_fee_eth"]

/-- A concrete draw, for evaluating the generator at one row. -/
def sampleDraw0 : SampleDraw :=
  ⟨0, 100, "0xfrom", "0xto", "0xhash", 10, 21000, 0⟩

/-! ## Helper lemmas -/

theorem collectRows_ok (body : List RespLine)
    (hm : body.any RespLine.isMalformed = false) :
    collectRows body = .ok (body.filterMap RespLine.getObj) := by
  induction body with
  | nil => rfl
  | cons l rest ih =>
    have hrest : rest.any RespLine.isMalformed = false := by
      simp only [List.any_cons, Bool.or_eq_false_iff] at hm
      exact hm.2
    cases l with
    | blank => simpa [collectRows, RespLine.getObj] using ih hrest
    | malformed m =>
      simp [List.any_cons, RespLine.isMalformed] at hm
    | obj r =>
      simp [collectRows, RespLine.getObj, ih hrest, Except.map]

theorem collectRows_error (body : List RespLine)
    (hm : body.any RespLine.isMalformed = true) :
    ∃ m, collectRows body = .error m := by
  induction body with
  | nil => simp at hm
  | cons l rest ih =>
    cases l with
    | malformed m => exact ⟨m, rfl⟩
    | blank =>
      have hrest : rest.any RespLine.isMalformed = true := by
        simpa [RespLine.isMalformed] using hm
      simpa [collectRows] using ih hrest
    | obj r =>
      have hrest : rest.any RespLine.isMalformed = true := by
        simpa [RespLine.isMalformed] using hm
      obtain ⟨m, h⟩ := ih hrest
      exact ⟨m, by simp [collectRows, h, Except.map]⟩

theorem collectRows_all_blank (body : List RespLine)
    (hb : ∀ l ∈ body, l.isBlank = true) :
    collectRows body = .ok [] := by
  induction body with
  | nil => rfl
  | cons l rest ih =>
    cases l with
    | blank =>
      simpa [collectRows] using ih (fun x hx => hb x (List.mem_cons_of_mem _ hx))
    | malformed m =>
      have := hb _ (List.mem_cons_self _ _)
      simp [RespLine.isBlank] at this
    | obj r =>
      have := hb _ (List.mem_cons_self _ _)
      simp [RespLine.isBlank] at this

theorem filterMap_getObj_length (body : List RespLine)
    (hm : body.any RespLine.isMalformed = false) :
    (body.filterMap RespLine.getObj).length
      = (body.filter (fun l => !l.isBlank)).length := by
  induction body with
  | nil => rfl
  | cons l rest ih =>
    have hrest : rest.any RespLine.isMalformed = false := by
      simp only [List.any_cons, Bool.or_eq_false_iff] at hm
      exact hm.2
    cases l with
    | blank => simpa [RespLine.getObj, RespLine.isBlank] using ih hrest
    | malformed m =>
      simp [List.any_cons, RespLine.isMalformed] at hm
    | obj r =>
      simp [RespLine.getObj, RespLine.isBlank, ih hrest]

theorem unionKeys_uniform (rows : List JsonObj) (ks : List String)
    (hne : rows ≠ []) (hk : ∀ r ∈ rows, r.map Prod.fst = ks) :
    unionKeys rows = ks := by
  have inv : ∀ (l : List JsonObj), (∀ r₂ ∈ l, r₂.map Prod.fst = ks) →
      List.foldl (fun acc r₂ => acc ++ (r₂.map Prod.fst).filter (fun k => !(acc.contains k))) ks l
        = ks := by
    intro l
    induction l with
    | nil => intro _; rfl
    | cons a t iht =>
      intro h
      rw [List.foldl_cons]
      have ha : a.map Prod.fst = ks := h a (List.mem_cons_self _ _)
      have hfil : (a.map Prod.fst).filter (fun k => !(ks.contains k)) = [] := by
        rw [ha]
        refine List.filter_eq_nil_iff.mpr ?_
        intro x hx
        simpa using hx
      rw [hfil, List.append_nil]
      exact iht (fun x hx => h x (List.mem_cons_of_mem _ hx))
  cases rows with
  | nil => exact absurd rfl hne
  | cons r rs =>
    have hr : r.map Prod.fst = ks := hk r (List.mem_cons_self _ _)
    have step1 : (([] : List String)
        ++ (r.map Prod.fst).filter (fun k => !(([] : List String).contains k))) = ks := by
      have hfull : (ks.filter (fun k => !(([] : List String).contains k))) = ks :=
        List.filter_eq_self.mpr (fun a _ => rfl)
      rw [hr, List.nil_append, hfull]
    unfold unionKeys
    rw [List.foldl_cons, step1]
    exact inv rs (fun x hx => hk x (List.mem_cons_of_mem _ hx))

theorem query_requestedUrl (c : AmpClient) (sql : String) (out : HttpOutcome) :
    (c.query sql out).requestedUrl = c.base_url := by
  cases out with
  | connectionError m => rfl
  | timeout m => rfl
  | response s m body =>
    unfold AmpClient.query
    by_cases hs : raiseForStatus s = true
    · simp [hs]
    · simp only [Bool.not_eq_true] at hs
      simp only [hs, Bool.false_eq_true, if_false]
      cases hcb : collectRows body <;> simp

theorem rstripSlashList_no_trailing (l : List Char) :
    (rstripSlashList l).getLast? ≠ some '/' := by
  unfold rstripSlashList
  rw [List.getLast?_reverse]
  intro h
  have hd := List.head?_dropWhile_not (fun c => c == '/') l.reverse
  rw [h] at hd
  simp at hd

theorem rstripSlashList_suffix (l : List Char) :
    ∃ k, l = rstripSlashList l ++ List.replicate k '/' := by
  refine ⟨(l.reverse.takeWhile (fun c => c == '/')).length, ?_⟩
  have h1 : l.reverse.takeWhile (fun c => c == '/')
      = List.replicate (l.reverse.takeWhile (fun c => c == '/')).length '/' :=
    List.eq_replicate_of_mem (fun b hb => by
      have hpb := List.mem_takeWhile_imp hb
      exact eq_of_beq (by simpa using hpb))
  have h3 : (l.reverse.takeWhile (fun c => c == '/')).reverse
      = List.replicate (l.reverse.takeWhile (fun c => c == '/')).length '/' := by
    conv_lhs => rw [h1]
    rw [List.reverse_replicate]
  calc l = l.reverse.reverse := (l.reverse_reverse).symm
    _ = (l.reverse.takeWhile (fun c => c == '/') ++ l.reverse.dropWhile (fun c => c == '/')).reverse := by
        rw [List.takeWhile_append_dropWhile]
    _ = rstripSlashList l ++ (l.reverse.takeWhile (fun c => c == '/')).reverse := by
        rw [List.reverse_append]; rfl
    _ = rstripSlashList l ++ List.replicate (l.reverse.takeWhile (fun c => c == '/')).length '/' := by
        rw [h3]

theorem rstripSlashList_append_replicate (l : List Char) (k : ℕ) :
    rstripSlashList (l ++ List.replicate k '/') = rstripSlashList l := by
  unfold rstripSlashList
  rw [List.reverse_append, List.reverse_replicate]
  congr 1
  induction k with
  | zero => simp
  | succ n ih =>
    rw [List.replicate_succ, List.cons_append,
      List.dropWhile_cons_of_pos (by simp)]
    exact ih

/-! ## Claim theorems -/

/-- Claim C1, counterexample. The claim says that on any failure, including a
non-success HTTP status, AmpClient.query returns an empty table and surfaces
a diagnostic; the spec fixes success as HTTP 2xx. The code calls
response.raise_for_status, which raises only for statuses 400-599, so a
status 300 response (not a 2xx success) with a valid one-line body is parsed
as a success: a one-row table is returned and no diagnostic is surfaced. -/
theorem c1_counterexample :
    ¬ ((200 : ℕ) ≤ 300 ∧ (300 : ℕ) < 300) ∧
    (demoClient.query "SELECT 1"
        (HttpOutcome.response 300 "redirect" [RespLine.obj [("a", PyVal.num 1)]])).diag = none ∧
    (demoClient.query "SELECT 1"
        (HttpOutcome.response 300 "redirect" [RespLine.obj [("a", PyVal.num 1)]])).frame
      ≠ DataFrame.empty := by
  refine ⟨by omega, rfl, by decide⟩

/-- Claim C1 (amended): AmpClient.query never raises to its caller; on any
failure it handles (connection error, timeout, HTTP status 400-599, or a
response-parsing error) it returns an empty table and surfaces a diagnostic,
and on any other outcome it returns the table parsed from the non-blank
lines with no diagnostic. -/
theorem c1_failure_paths (c : AmpClient) (sql : String) (out : HttpOutcome) :
    (queryFails out = true →
       (c.query sql out).frame = DataFrame.empty ∧ (c.query sql out).diag.isSome = true) ∧
    (queryFails out = false →
       (c.query sql out).diag = none ∧
       (c.query sql out).frame = DataFrame.ofRecords (successRows out)) := by
  cases out with
  | connectionError m =>
    exact ⟨fun _ => ⟨rfl, rfl⟩, fun h => by simp [queryFails] at h⟩
  | timeout m =>
    exact ⟨fun _ => ⟨rfl, rfl⟩, fun h => by simp [queryFails] at h⟩
  | response s m body =>
    by_cases hs : raiseForStatus s = true
    · constructor
      · intro _
        constructor
        · simp [AmpClient.query, hs]
        · simp [AmpClient.query, hs]
      · intro h
        simp [queryFails, hs] at h
    · have hs' : raiseForStatus s = false := by
        simpa using hs
      by_cases hmal : body.any RespLine.isMalformed = true
      · obtain ⟨msg, hmsg⟩ := collectRows_error body hmal
        constructor
        · intro _
          constructor
          · simp [AmpClient.query, hs', hmsg]
          · simp [AmpClient.query, hs', hmsg]
        · intro h
          simp [queryFails, hs', hmal] at h
      · have hmal' : body.any RespLine.isMalformed = false := by
          simpa using hmal
        have hok := collectRows_ok body hmal'
        constructor
        · intro h
          exfalso
          simp [queryFails, hs', hmal'] at h
        · intro _
          constructor
          · simp [AmpClient.query, hs', hok]
          · simp [AmpClient.query, hs', hok, successRows]

/-- Witness for C1 (amended), at a concrete connection failure. -/
theorem c1_failure_paths_witness :
    (demoClient.query "SELECT 1" (HttpOutcome.connectionError "refused")).frame
        = DataFrame.empty ∧
    (demoClient.query "SELECT 1" (HttpOutcome.connectionError "refused")).diag.isSome = true :=
  (c1_failure_paths demoClient "SELECT 1" (HttpOutcome.connectionError "refused")).1 rfl

/-- Claim C2, counterexample. A connection failure and a non-success HTTP
status are handled by the same except branch and produce the same surfaced
diagnostic whenever the library exception texts coincide: the client's own
message does not distinguish the two cases. -/
theorem c2_counterexample :
    (demoClient.query "SELECT 1" (HttpOutcome.connectionError "E")).diag
      = (demoClient.query "SELECT 1" (HttpOutcome.response 500 "E" [])).diag ∧
    raiseForStatus 500 = true := by
  refine ⟨by decide, by decide⟩

/-- Claim C2 (amended): connection failures, timeouts, and error statuses are
all caught by the one RequestException handler and surface the one template
"Failed to connect to Amp server" followed by the library exception text; the
cases are distinguishable only through that library-supplied text, not
through the client's own labeling (which is distinct only from the
parse-failure template). -/
theorem c2_transport_diagnostic_template (c : AmpClient) (sql m smsg : String)
    (s : ℕ) (body : List RespLine) (hs : raiseForStatus s = true) :
    (c.query sql (HttpOutcome.connectionError m)).diag
        = some (Diagnostic.ampConnectError m) ∧
    (c.query sql (HttpOutcome.timeout m)).diag
        = some (Diagnostic.ampConnectError m) ∧
    (c.query sql (HttpOutcome.response s smsg body)).diag
        = some (Diagnostic.ampConnectError smsg) ∧
    (Diagnostic.ampConnectError m).render = "Failed to connect to Amp server: " ++ m ∧
    (∀ m₂, Diagnostic.ampConnectError m ≠ Diagnostic.queryError m₂) := by
  refine ⟨rfl, rfl, by simp [AmpClient.query, hs], rfl, fun m₂ h => by cases h⟩

/-- Witness for C2 (amended), at a concrete connection failure and a
concrete 404 response. -/
theorem c2_transport_diagnostic_template_witness :
    (demoClient.query "q" (HttpOutcome.connectionError "E")).diag
        = some (Diagnostic.ampConnectError "E") ∧
    (demoClient.query "q" (HttpOutcome.response 404 "E2" [])).diag
        = some (Diagnostic.ampConnectError "E2") :=
  ⟨(c2_transport_diagnostic_template demoClient "q" "E" "E2" 404 [] (by decide)).1,
   (c2_transport_diagnostic_template demoClient "q" "E" "E2" 404 [] (by decide)).2.2.1⟩

/-- Claim C3: for every response body containing at least one malformed JSON
line, AmpClient.query treats the whole response as invalid: it returns an
empty table (never a partially-populated one) and surfaces the parse-failure
diagnostic. -/
theorem c3_malformed_line_parse_failure (c : AmpClient) (sql smsg : String)
    (s : ℕ) (body : List RespLine) (hs : raiseForStatus s = false)
    (hm : body.any RespLine.isMalformed = true) :
    (c.query sql (HttpOutcome.response s smsg body)).frame = DataFrame.empty ∧
    (∃ m, (c.query sql (HttpOutcome.response s smsg body)).diag
        = some (Diagnostic.queryError m)) := by
  obtain ⟨m, hcr⟩ := collectRows_error body hm
  exact ⟨by simp [AmpClient.query, hs, hcr], ⟨m, by simp [AmpClient.query, hs, hcr]⟩⟩

/-- Witness for C3, a body with one malformed line among valid ones. -/
theorem c3_malformed_line_parse_failure_witness :
    (demoClient.query "q" (HttpOutcome.response 200 "ok"
        [RespLine.obj [("a", PyVal.num 1)], RespLine.malformed "bad json",
         RespLine.obj [("b", PyVal.num 2)]])).frame = DataFrame.empty ∧
    (∃ m, (demoClient.query "q" (HttpOutcome.response 200 "ok"
        [RespLine.obj [("a", PyVal.num 1)], RespLine.malformed "bad json",
         RespLine.obj [("b", PyVal.num 2)]])).diag = some (Diagnostic.queryError m)) :=
  c3_malformed_line_parse_failure demoClient "q" "ok" 200 _ (by decide) (by decide)

/-- Claim C4, counterexample. The claim says each row's keys match the keys
of the JSON object parsed from its line. For the well-formed two-line body
with objects of keys a and b respectively, pandas takes the union of the
keys: the resulting frame has columns a and b, every row carries both keys
(the missing cell padded with NaN), so the first row's key list is not the
first object's key list. -/
theorem c4_counterexample :
    (demoClient.query "q" (HttpOutcome.response 200 "ok"
        [RespLine.obj [("a", PyVal.num 1)], RespLine.obj [("b", PyVal.num 2)]])).frame
      = ⟨["a", "b"], [[some (PyVal.num 1), none], [none, some (PyVal.num 2)]]⟩ ∧
    (["a", "b"] : List String) ≠ ["a"] ∧
    (["a", "b"] : List String) ≠ ["b"] := by
  refine ⟨by decide, by decide, by decide⟩

/-- Claim C4 (amended): for every well-formed newline-delimited JSON response
body (no malformed line) on a non-raising status, AmpClient.query produces a
table with exactly N rows where N is the number of non-blank lines; the
table's column list is the union of the parsed objects' keys in order of
first appearance, and every row carries that full column list; when all
parsed objects share one key list, each row's keys therefore match the keys
of the JSON object parsed from its line. -/
theorem c4_row_count_and_columns (c : AmpClient) (sql smsg : String) (s : ℕ)
    (body : List RespLine) (hs : raiseForStatus s = false)
    (hm : body.any RespLine.isMalformed = false) :
    ((c.query sql (HttpOutcome.response s smsg body)).frame.rows.length
        = (body.filter (fun l => !l.isBlank)).length) ∧
    ((c.query sql (HttpOutcome.response s smsg body)).frame.columns
        = unionKeys (body.filterMap RespLine.getObj)) ∧
    (∀ row ∈ (c.query sql (HttpOutcome.response s smsg body)).frame.rows,
        row.length = (c.query sql (HttpOutcome.response s smsg body)).frame.columns.length) ∧
    (∀ ks : List String, body.filterMap RespLine.getObj ≠ [] →
        (∀ r ∈ body.filterMap RespLine.getObj, r.map Prod.fst = ks) →
        (c.query sql (HttpOutcome.response s smsg body)).frame.columns = ks) := by
  have hok := collectRows_ok body hm
  have hq : c.query sql (HttpOutcome.response s smsg body)
      = ⟨c.base_url, sql, DataFrame.ofRecords (body.filterMap RespLine.getObj), none⟩ := by
    simp [AmpClient.query, hs, hok]
  rw [hq]
  refine ⟨?_, rfl, ?_, ?_⟩
  · simpa [DataFrame.ofRecords] using filterMap_getObj_length body hm
  · intro row hrow
    simp only [DataFrame.ofRecords, List.mem_map] at hrow
    obtain ⟨r, _, rfl⟩ := hrow
    simp [DataFrame.ofRecords]
  · intro ks hne hk
    exact unionKeys_uniform _ ks hne hk

/-- Witness for C4 (amended), at a concrete uniform two-object body with a
blank line between the objects. -/
theorem c4_row_count_and_columns_witness :
    (demoClient.query "q" (HttpOutcome.response 200 "ok"
        [RespLine.obj [("a", PyVal.num 1)], RespLine.blank,
         RespLine.obj [("a", PyVal.num 2)]])).frame.rows.length
      = ([RespLine.obj [("a", PyVal.num 1)], RespLine.blank,
          RespLine.obj [("a", PyVal.num 2)]].filter (fun l => !l.isBlank)).length :=
  (c4_row_count_and_columns demoClient "q" "ok" 200 _ (by decide) (by decide)).1

/-- Claim C5: for every response body that is empty or consists only of blank
lines, on a non-raising status, AmpClient.query returns an empty table with
no diagnostic; transport failures and parse failures, in contrast, always
surface a diagnostic, so the empty-result outcome is distinguishable from
both. -/
theorem c5_empty_body_empty_result (c : AmpClient) (sql smsg : String)
    (s : ℕ) (body : List RespLine) (hs : raiseForStatus s = false)
    (hb : ∀ l ∈ body, l.isBlank = true) :
    (c.query sql (HttpOutcome.response s smsg body)).frame = DataFrame.empty ∧
    (c.query sql (HttpOutcome.response s smsg body)).diag = none ∧
    (∀ m, (c.query sql (HttpOutcome.connectionError m)).diag.isSome = true) ∧
    (∀ m, (c.query sql (HttpOutcome.timeout m)).diag.isSome = true) ∧
    (∀ (s₂ : ℕ) (smsg₂ : String) (b₂ : List RespLine), raiseForStatus s₂ = true →
        (c.query sql (HttpOutcome.response s₂ smsg₂ b₂)).diag.isSome = true) ∧
    (∀ (s₂ : ℕ) (smsg₂ : String) (b₂ : List RespLine), raiseForStatus s₂ = false →
        b₂.any RespLine.isMalformed = true →
        (c.query sql (HttpOutcome.response s₂ smsg₂ b₂)).diag.isSome = true) := by
  have hcr := collectRows_all_blank body hb
  refine ⟨by simp [AmpClient.query, hs, hcr]; rfl,
          by simp [AmpClient.query, hs, hcr],
          fun m => rfl, fun m => rfl,
          fun s₂ smsg₂ b₂ hs₂ => by simp [AmpClient.query, hs₂],
          fun s₂ smsg₂ b₂ hs₂ hm₂ => ?_⟩
  obtain ⟨m, hcr₂⟩ := collectRows_error b₂ hm₂
  simp [AmpClient.query, hs₂, hcr₂]

/-- Witness for C5, at the empty body (zero lines) and status 200. -/
theorem c5_empty_body_empty_result_witness :
    (demoClient.query "q" (HttpOutcome.response 200 "ok" [])).frame = DataFrame.empty ∧
    (demoClient.query "q" (HttpOutcome.response 200 "ok" [])).diag = none :=
  ⟨(c5_empty_body_empty_result demoClient "q" "ok" 200 [] (by decide)
      (fun l hl => absurd hl (List.not_mem_nil l))).1,
   (c5_empty_body_empty_result demoClient "q" "ok" 200 [] (by decide)
      (fun l hl => absurd hl (List.not_mem_nil l))).2.1⟩

/-- Claim C6: for every threshold T in whole-token units, the recent-transfers
template's WHERE clause compares the raw value against T times 10 to the 18
with the inclusive comparison (a row whose raw value is exactly the bound
passes, recipient permitting), the selected eth_amount expression divides the
raw value by the same 10 to the 18 scale, and satisfying the raw filter is
equivalent to the converted amount being at least T. -/
theorem c6_threshold_scale_consistency (T : ℚ) :
    (get_whale_transfers_sql T).whereBound = T * 10 ^ 18 ∧
    (get_whale_transfers_sql T).whereCmp = CmpOp.ge ∧
    ((ScalarExpr.divC ScalarExpr.castValueDouble ((10 : ℚ) ^ 18), "eth_amount")
        ∈ (get_whale_transfers_sql T).select) ∧
    (∀ r : TransferRow,
        (ScalarExpr.divC ScalarExpr.castValueDouble ((10 : ℚ) ^ 18)).eval r
          = PyVal.num (r.value / 10 ^ 18)) ∧
    (∀ r : TransferRow, r.value = T * 10 ^ 18 → r.to_addr.isSome = true →
        transfersRowPasses (get_whale_transfers_sql T) r = true) ∧
    (∀ r : TransferRow,
        CmpOp.ge.holds r.value (T * 10 ^ 18) = true ↔ T ≤ r.value / 10 ^ 18) := by
  refine ⟨rfl, rfl, by simp [get_whale_transfers_sql], fun r => rfl, ?_, ?_⟩
  · intro r hval hto
    simp [transfersRowPasses, get_whale_transfers_sql, CmpOp.holds, hval, hto]
  · intro r
    rw [CmpOp.holds, decide_eq_true_iff]
    exact (le_div_iff₀ (by positivity)).symm

/-- Witness for C6: with threshold 50, a row whose raw value is exactly
50 times 10 to the 18 and whose recipient is non-null passes the filter. -/
theorem c6_threshold_scale_consistency_witness :
    transfersRowPasses (get_whale_transfers_sql 50)
      ⟨0, 0, "0xhash", "0xfrom", some "0xto", 50 * 10 ^ 18⟩ = true :=
  (c6_threshold_scale_consistency 50).2.2.2.2.1
    ⟨0, 0, "0xhash", "0xfrom", some "0xto", 50 * 10 ^ 18⟩ rfl rfl

/-- Claim C7: for every threshold, the recent-transfers template selects
timestamp, block_num, the transaction hash, the sender, the recipient and
the converted value; its WHERE clause holds exactly for rows with non-null
recipient and raw value at least the scaled threshold; it orders by the raw
value descending; and its LIMIT is 500, within 200 to 500. -/
theorem c7_transfers_template_shape (T : ℚ) :
    (get_whale_transfers_sql T).select =
        [(ScalarExpr.col "timestamp", "timestamp"),
         (ScalarExpr.col "block_num", "block_num"),
         (ScalarExpr.col "tx_hash", "transaction_hash"),
         (ScalarExpr.col "from", "from_address"),
         (ScalarExpr.col "to", "to_address"),
         (ScalarExpr.divC ScalarExpr.castValueDouble ((10 : ℚ) ^ 18), "eth_amount")] ∧
    (get_whale_transfers_sql T).whereToNotNull = true ∧
    (∀ r : TransferRow, transfersRowPasses (get_whale_transfers_sql T) r = true ↔
        (T * 10 ^ 18 ≤ r.value ∧ r.to_addr.isSome = true)) ∧
    (get_whale_transfers_sql T).orderByExpr = ScalarExpr.castValueDouble ∧
    (get_whale_transfers_sql T).orderDesc = true ∧
    (get_whale_transfers_sql T).limit = 500 ∧
    200 ≤ (get_whale_transfers_sql T).limit ∧ (get_whale_transfers_sql T).limit ≤ 500 := by
  refine ⟨rfl, rfl, ?_, rfl, rfl, rfl,
    by show (200 : ℕ) ≤ 500; norm_num, by show (500 : ℕ) ≤ 500; norm_num⟩
  intro r
  simp [transfersRowPasses, get_whale_transfers_sql, CmpOp.holds]

/-- Witness for C7: with threshold 50, a row of raw value 10 to the 20 with a
non-null recipient satisfies the WHERE clause. -/
theorem c7_transfers_template_shape_witness :
    transfersRowPasses (get_whale_transfers_sql 50)
      ⟨0, 0, "0xhash", "0xfrom", some "0xto", 10 ^ 20⟩ = true :=
  ((c7_transfers_template_shape 50).2.2.1
      ⟨0, 0, "0xhash", "0xfrom", some "0xto", 10 ^ 20⟩).mpr
    ⟨by norm_num, rfl⟩

/-- Claim C8, counterexample. The claim says the top-senders statement
computes an average of the converted value per sender and applies a minimum
transfer-count filter. The SQL text of get_whale_stats has no AVG aggregate
among its selected aggregates and no HAVING clause at all. -/
theorem c8_counterexample :
    (get_whale_stats_sql.aggs.any (fun p => p.1.isAvg)) = false ∧
    get_whale_stats_sql.havingCountAtLeast = none := by
  exact ⟨by decide, rfl⟩

/-- Claim C8 (amended): the top-senders statement groups rows meeting the
threshold and non-null-recipient filter by the sender address; computes
count, sum, and maximum of the converted value per sender (no average);
applies no minimum transfer-count filter; orders by total value descending;
and bounds the result to 15 rows, within 15 to 20. -/
theorem c8_stats_template_shape :
    get_whale_stats_sql.selectKey = ("from", "from_address") ∧
    get_whale_stats_sql.groupBy = "from" ∧
    get_whale_stats_sql.aggs =
        [(AggExpr.countStar, "transfer_count"),
         (AggExpr.sumA (ScalarExpr.divC ScalarExpr.castValueDouble ((10 : ℚ) ^ 18)), "total_eth"),
         (AggExpr.maxA (ScalarExpr.divC ScalarExpr.castValueDouble ((10 : ℚ) ^ 18)),
          "largest_transfer")] ∧
    (get_whale_stats_sql.aggs.any (fun p => p.1.isAvg)) = false ∧
    get_whale_stats_sql.havingCountAtLeast = none ∧
    get_whale_stats_sql.whereCmp = CmpOp.ge ∧
    get_whale_stats_sql.whereBound = 50 * 10 ^ 18 ∧
    get_whale_stats_sql.whereToNotNull = true ∧
    (∀ r : TransferRow, statsRowPasses get_whale_stats_sql r = true ↔
        (50 * 10 ^ 18 ≤ r.value ∧ r.to_addr.isSome = true)) ∧
    get_whale_stats_sql.orderByOut = "total_eth" ∧
    get_whale_stats_sql.orderDesc = true ∧
    get_whale_stats_sql.limit = 15 ∧
    15 ≤ get_whale_stats_sql.limit ∧ get_whale_stats_sql.limit ≤ 20 := by
  refine ⟨rfl, rfl, rfl, by decide, rfl, rfl, ?_, rfl, ?_, rfl, rfl, rfl, by decide, by decide⟩
  · show (50000000000000000000 : ℚ) = 50 * 10 ^ 18
    norm_num
  · intro r
    have hb : (50000000000000000000 : ℚ) = 50 * 10 ^ 18 := by norm_num
    simp [statsRowPasses, get_whale_stats_sql, CmpOp.holds, hb]

/-- Claim C9, counterexample. The claim says the synthetic data generator's
schema equals the schema of the live recent-transfers output. At one
generated row, the generator's columns start with block_timestamp and
block_number and include three gas columns, while the live template's output
names are timestamp, block_num, transaction_hash, from_address, to_address,
eth_amount: the two column lists differ. -/
theorem c9_counterexample :
    (generate_sample_whale_data 1 0 (fun _ => sampleDraw0)).columns
      ≠ (get_whale_transfers_sql 50).select.map Prod.snd := by
  decide

/-- Claim C9 (amended): for every positive requested row count, the synthetic
generator produces a table whose column list is the fixed nine-name list
block_timestamp, block_number, transaction_hash, from_address, to_address,
eth_amount, gas_gwei, gas_used, gas_fee_eth; that list is not the live
recent-transfers schema (for any threshold), and the two schemas share
exactly the four columns transaction_hash, from_address, to_address and
eth_amount. -/
theorem c9_generator_schema (n : ℕ) (hn : 0 < n) (base : ℚ)
    (draws : ℕ → SampleDraw) :
    (generate_sample_whale_data n base draws).columns = sample_columns ∧
    (∀ T : ℚ, sample_columns ≠ (get_whale_transfers_sql T).select.map Prod.snd) ∧
    (sample_columns.filter (fun cname =>
        ((get_whale_transfers_sql 50).select.map Prod.snd).contains cname)
      = ["transaction_hash", "from_address", "to_address", "eth_amount"]) := by
  have hsel : ∀ T : ℚ, (get_whale_transfers_sql T).select.map Prod.snd
      = ["timestamp", "block_num", "transaction_hash", "from_address",
         "to_address", "eth_amount"] := fun T => rfl
  refine ⟨?_, fun T => by rw [hsel T]; decide, by rw [hsel 50]; decide⟩
  have hkeys : ∀ r ∈ (List.range n).map (fun i => sampleRecord base (draws i)),
      r.map Prod.fst = sample_columns := by
    intro r hr
    simp only [List.mem_map] at hr
    obtain ⟨i, _, rfl⟩ := hr
    rfl
  have hne : (List.range n).map (fun i => sampleRecord base (draws i)) ≠ [] := by
    simp only [ne_eq, List.map_eq_nil_iff, List.range_eq_nil]
    omega
  exact unionKeys_uniform _ _ hne hkeys

/-- Witness for C9 (amended), at one generated row. -/
theorem c9_generator_schema_witness :
    (generate_sample_whale_data 1 0 (fun _ => sampleDraw0)).columns = sample_columns :=
  (c9_generator_schema 1 (by norm_num) 0 (fun _ => sampleDraw0)).1

/-- Claim C10: the constructor stores the configured URL with all trailing
slash characters removed (the stored URL never ends in a slash and the
original is the stored URL plus some run of slashes); every query POSTs to
exactly the stored URL; and two clients whose configured URLs differ only in
trailing slashes store, and POST every request to, the identical URL. -/
theorem c10_base_url_normalization (base : String) :
    (¬ endsWithSlash (AmpClient.ofBaseUrl base).base_url) ∧
    (∃ k, base = (AmpClient.ofBaseUrl base).base_url ++ slashReplicate k) ∧
    (∀ (sql : String) (out : HttpOutcome),
        ((AmpClient.ofBaseUrl base).query sql out).requestedUrl
          = (AmpClient.ofBaseUrl base).base_url) ∧
    (∀ (t : String) (k₁ k₂ : ℕ),
        (AmpClient.ofBaseUrl (t ++ slashReplicate k₁)).base_url
          = (AmpClient.ofBaseUrl (t ++ slashReplicate k₂)).base_url) ∧
    (∀ (t : String) (k₁ k₂ : ℕ) (sql : String) (out : HttpOutcome),
        ((AmpClient.ofBaseUrl (t ++ slashReplicate k₁)).query sql out).requestedUrl
          = ((AmpClient.ofBaseUrl (t ++ slashReplicate k₂)).query sql out).requestedUrl) := by
  have hinv : ∀ (t : String) (k₁ k₂ : ℕ),
      (AmpClient.ofBaseUrl (t ++ slashReplicate k₁)).base_url
        = (AmpClient.ofBaseUrl (t ++ slashReplicate k₂)).base_url := by
    intro t k₁ k₂
    show String.mk (rstripSlashList (t.data ++ List.replicate k₁ '/'))
        = String.mk (rstripSlashList (t.data ++ List.replicate k₂ '/'))
    rw [rstripSlashList_append_replicate, rstripSlashList_append_replicate]
  refine ⟨?_, ?_, fun sql out => query_requestedUrl _ sql out, hinv, ?_⟩
  · show ¬ (rstripSlashList base.data).getLast? = some '/'
    exact rstripSlashList_no_trailing base.data
  · obtain ⟨k, hk⟩ := rstripSlashList_suffix base.data
    refine ⟨k, ?_⟩
    show String.mk base.data
        = String.mk (rstripSlashList base.data) ++ String.mk (List.replicate k '/')
    calc String.mk base.data
        = String.mk (rstripSlashList base.data ++ List.replicate k '/') :=
          congrArg String.mk hk
      _ = String.mk (rstripSlashList base.data) ++ String.mk (List.replicate k '/') := rfl
  · intro t k₁ k₂ sql out
    rw [query_requestedUrl, query_requestedUrl]
    exact hinv t k₁ k₂
